import Mathlib

/-!
Shallow embedding of the lazorkit-starter front-end handlers.

Each React event handler or effect is modelled as a pure function from the
component's state and the results of its external calls (SDK hooks and
Solana RPC, passed in as oracles of type Except) to the component's final
state, the list of UI events it emits (toasts, console logs, inline error
state), and a record of the external call it made, when any.
-/

/-- Error object thrown by the SDK or the RPC client; only its optional
`message` field is inspected by this repository. -/
structure SdkErr where
  message : Option String
  deriving DecidableEq, Repr

/-- JavaScript number restricted to what the handlers need: either NaN or a
rational value.  Multiplication propagates NaN as in JS. -/
inductive JsNum where
  | nan : JsNum
  | num (q : Rat) : JsNum
  deriving DecidableEq, Repr

/-- JS multiplication: NaN is absorbing. -/
def JsNum.mul : JsNum → JsNum → JsNum
  | .num a, .num b => .num (a * b)
  | _, _ => .nan

/-- From @solana/web3.js: lamports per SOL. -/
def LAMPORTS_PER_SOL : Rat := 1000000000

/-- JS `a || b` on an optional string: the default is used when the string
is absent or empty (falsy). -/
def jsOrDefault (s : Option String) (dflt : String) : String :=
  match s with
  | none => dflt
  | some m => if m = "" then dflt else m

/-- JS string whitespace for the purposes of String.prototype.trim. -/
def isJsWhitespace (c : Char) : Bool :=
  c = ' ' || c = '\t' || c = '\n' || c = '\r'

/-- JS String.prototype.trim. -/
def jsTrim (s : String) : String :=
  String.mk (((s.data.dropWhile isJsWhitespace).reverse.dropWhile isJsWhitespace).reverse)

/-- JS String.prototype.toLowerCase (ASCII fragment). -/
def toLowerStr (s : String) : String :=
  String.map Char.toLower s

/-- Does the second character list occur as a prefix of the first? -/
def startsWithChars : List Char → List Char → Bool
  | _, [] => true
  | [], _ :: _ => false
  | a :: as, b :: bs => a = b && startsWithChars as bs

/-- Does `sub` occur as a contiguous sublist of the second argument? -/
def occursIn (sub : List Char) : List Char → Bool
  | [] => startsWithChars [] sub
  | a :: as => startsWithChars (a :: as) sub || occursIn sub as

/-- JS String.prototype.includes. -/
def strIncludes (s sub : String) : Bool :=
  occursIn sub.data s.data

/-- A UI-visible event emitted by a handler, in order of emission. -/
inductive UiEvent where
  | toastSuccess (title : String) (description : Option String)
  | toastError (title : String) (description : Option String)
  | consoleError (tag : String)
  | consoleLog (tag : String)
  | setAuthError (message : String) (errType : String)
  deriving DecidableEq, Repr

/-- Is this event a user-visible surfacing of an error (toast or inline
error state), as opposed to a mere console log? -/
def UiEvent.isErrorSurface : UiEvent → Bool
  | .toastError _ _ => true
  | .setAuthError _ _ => true
  | _ => false

/-- Some event in the list surfaces an error to the user. -/
def surfacesError (events : List UiEvent) : Bool :=
  events.any UiEvent.isErrorSurface

/-! ## WalletOverview: fetchBalances -/

/-- Local state of the WalletOverview component. -/
structure WalletOverviewState where
  solBalance : Option Rat
  usdcBalance : Option Rat
  loading : Bool
  copied : Bool
  deriving DecidableEq, Repr

/-- JS truthiness of `wallet?.smartWallet`. -/
def jsTruthyWallet : Option String → Bool
  | none => false
  | some w => w ≠ ""

/--
WalletOverview.fetchBalances.  Oracles: `getBalance` is the RPC
`connection.getBalance(pubkey)` (lamports); `getTokenAccounts` is
`connection.getParsedTokenAccountsByOwner` reduced to the list of parsed
`uiAmount`s.  Returns the final component state and the emitted events.
-/
def fetchBalances (smartWallet : Option String)
    (getBalance : Except SdkErr Int)
    (getTokenAccounts : Except SdkErr (List Rat))
    (s : WalletOverviewState) : WalletOverviewState × List UiEvent :=
  if jsTruthyWallet smartWallet then
    match getBalance with
    | .error _ =>
        ({ s with loading := false },
         [.consoleError "Failed to fetch balances",
          .toastError "Failed to fetch balances" none])
    | .ok sol =>
        let s1 := { s with solBalance := some ((sol : Rat) / LAMPORTS_PER_SOL) }
        match getTokenAccounts with
        | .error _ => ({ s1 with usdcBalance := some 0, loading := false }, [])
        | .ok accts =>
            match accts with
            | [] => ({ s1 with usdcBalance := some 0, loading := false }, [])
            | a :: _ => ({ s1 with usdcBalance := some a, loading := false }, [])
  else (s, [])

/-! ## TransactionHistory: fetchTransactions and formatTime -/

/-- An entry of `getSignaturesForAddress`, the fields the component reads. -/
structure ConfirmedSignatureInfo where
  signature : String
  slot : Nat
  blockTime : Option Int
  err : Option String
  deriving DecidableEq, Repr

/-- The component's local Transaction interface. -/
structure Transaction where
  signature : String
  slot : Nat
  blockTime : Option Int
  err : Option String
  deriving DecidableEq, Repr

/-- Local state of the TransactionHistory component. -/
structure TransactionHistoryState where
  transactions : List Transaction
  loading : Bool
  deriving DecidableEq, Repr

/--
TransactionHistory.fetchTransactions.  The oracle `getSignatures` is
`connection.getSignaturesForAddress(pubkey, limit 5)`.  On failure the
handler logs to the console and emits nothing else.
-/
def fetchTransactions (smartWallet : Option String)
    (getSignatures : Except SdkErr (List ConfirmedSignatureInfo))
    (s : TransactionHistoryState) : TransactionHistoryState × List UiEvent :=
  if jsTruthyWallet smartWallet then
    match getSignatures with
    | .error _ =>
        ({ s with loading := false }, [.consoleError "Failed to fetch transactions"])
    | .ok sigs =>
        ({ s with
            transactions := sigs.map (fun g =>
              { signature := g.signature, slot := g.slot,
                blockTime := g.blockTime, err := g.err }),
            loading := false }, [])
  else (s, [])

/--
TransactionHistory.formatTime.  `now` is `Date.now() / 1000`; `blockTime`
is the transaction's Unix timestamp or null.  JS `!blockTime` is true for
both null and 0.
-/
def formatTime (now : Rat) (blockTime : Option Int) : String :=
  match blockTime with
  | none => "Pending..."
  | some bt =>
      if bt = 0 then "Pending..."
      else
        let diff : Rat := now - (bt : Rat)
        if diff < 60 then "Just now"
        else if diff < 3600 then
          let m := Int.floor (diff / 60)
          toString m ++ "m ago"
        else if diff < 86400 then
          let h := Int.floor (diff / 3600)
          toString h ++ "h ago"
        else
          let d := Int.floor (diff / 86400)
          toString d ++ "d ago"

example : formatTime 100 (some 30) = "1m ago" := by
  norm_num [formatTime]
  decide
example : formatTime 100 none = "Pending..." := by decide
example : formatTime 7300 (some 0) = "Pending..." := by
  norm_num [formatTime]
example : formatTime 7300 (some 50) = "2h ago" := by
  norm_num [formatTime]
  decide
example :
    (fetchBalances (some "w") (.ok 5) (.error { message := none })
      { solBalance := none, usdcBalance := none, loading := false, copied := false }).1.usdcBalance
    = some 0 := by decide

/-! ## SignMessage: handleSign -/

/-- Return value of the SDK `signMessage` call: the component handles both a
plain string and an object with a `signature` field. -/
inductive SignResult where
  | str (s : String)
  | obj (signature : String)
  deriving DecidableEq, Repr

/-- Local state of the SignMessage component. -/
structure SignMessageState where
  message : String
  signature : Option String
  loading : Bool
  copied : Bool
  deriving DecidableEq, Repr

/--
SignMessage.handleSign.  The oracle `signMessageResult` is the result of
the SDK call `signMessage(message)`.  The third component of the result
records the argument passed to `signMessage` (none when the SDK was never
called).
-/
def handleSign (signMessageResult : Except SdkErr SignResult)
    (s : SignMessageState) : SignMessageState × List UiEvent × Option String :=
  if jsTrim s.message = "" then
    (s, [.toastError "Please enter a message to sign" none], none)
  else
    match signMessageResult with
    | .ok r =>
        let sig := match r with
          | .str t => t
          | .obj t => t
        ({ s with signature := some sig, loading := false },
         [.toastSuccess "Message signed successfully!"
            (some "Signature verified with your passkey.")],
         some s.message)
    | .error e =>
        ({ s with signature := none, loading := false },
         [.consoleError "Sign message failed",
          .toastError "Signing failed"
            (some (jsOrDefault e.message "User cancelled or passkey error."))],
         some s.message)

/-! ## PasskeyLogin: getErrorType and handleLogin -/

/-- PasskeyLogin's inline error state. -/
structure AuthError where
  message : String
  type : String
  deriving DecidableEq, Repr

/-- PasskeyLogin.getErrorType: classifies the thrown error by substrings of
its lowercased message. -/
def getErrorType (message : Option String) : String :=
  let msg := match message with
    | some m => toLowerStr m
    | none => ""
  if strIncludes msg "cancel" || strIncludes msg "abort" || strIncludes msg "user" then
    "cancelled"
  else if strIncludes msg "timeout" then "timeout"
  else if strIncludes msg "not supported" || strIncludes msg "not allowed" then
    "unsupported"
  else "unknown"

/--
PasskeyLogin.handleLogin.  The oracle `connectResult` is the result of the
SDK `connect()` call.  Returns the final `authError` state, the emitted
events (a thrown error is logged and stored as an inline AuthError, shown
as the error overlay), and the number of `connect` invocations made.
-/
def handleLogin (connectResult : Except SdkErr Unit) :
    Option AuthError × List UiEvent × Nat :=
  match connectResult with
  | .ok _ =>
      (none,
       [.toastSuccess "Successfully authenticated with Passkey!"
          (some "Your smart wallet is ready to use.")], 1)
  | .error e =>
      let errorType := getErrorType e.message
      let msg := jsOrDefault e.message "Authentication failed"
      (some { message := msg, type := errorType },
       [.consoleError "Authentication failed", .setAuthError msg errorType], 1)

/-! ## GaslessTransfer: handleTransfer -/

/-- Local state of the GaslessTransfer component. -/
structure GaslessTransferState where
  recipient : String
  amount : String
  loading : Bool
  gasless : Bool
  deriving DecidableEq, Repr

/-- JS BigInt() conversion of a Number, as SystemProgram.transfer applies
it to its lamports parameter when encoding the u64 instruction data: it
throws a RangeError unless the number is an integer, in particular on
NaN. -/
def bigIntOf : JsNum → Except SdkErr Int
  | .nan =>
      .error
        { message := some "The number NaN cannot be converted to a BigInt because it is not an integer" }
  | .num q =>
      if q.den = 1 then .ok q.num
      else
        .error
          { message := some "The number cannot be converted to a BigInt because it is not an integer" }

/-- A SystemProgram.transfer instruction as the component constructs it;
its lamports value has already passed BigInt conversion. -/
structure TransferInstruction where
  fromPubkey : String
  toPubkey : String
  lamports : Int
  deriving DecidableEq, Repr

/-- Transaction options passed in gasless mode. -/
structure TxOptions where
  feeToken : String
  deriving DecidableEq, Repr

/-- The argument record of a `signAndSendTransaction` call. -/
structure SendTxCall where
  instructions : List TransferInstruction
  transactionOptions : Option TxOptions
  deriving DecidableEq, Repr

/--
GaslessTransfer.handleTransfer.  Oracles: `pubkeyOf` is the result of
`new PublicKey(recipient)` (throws on an invalid address); `parsedAmount`
is the value of `parseFloat(amount)` (NaN when the string does not parse);
`sendTx` is the result of the SDK `signAndSendTransaction` call.
SystemProgram.transfer converts its lamports parameter with BigInt while
constructing the instruction, so a NaN or non-integer lamports value
throws inside the try block and is handled by the same catch as the other
failures.  The third component records the call made to
`signAndSendTransaction`, when any.
-/
def handleTransfer (smartWalletPubkey : Option String)
    (pubkeyOf : Except SdkErr String)
    (parsedAmount : JsNum)
    (sendTx : Except SdkErr String)
    (s : GaslessTransferState) :
    GaslessTransferState × List UiEvent × Option SendTxCall :=
  match smartWalletPubkey with
  | none => (s, [], none)
  | some me =>
      if s.recipient = "" || s.amount = "" then
        (s, [.toastError "Please fill in all fields" none], none)
      else
        match pubkeyOf with
        | .error e =>
            ({ s with loading := false },
             [.consoleError "Transfer failed",
              .toastError "Transfer failed"
                (some (jsOrDefault e.message "Unknown error"))], none)
        | .ok destination =>
          match bigIntOf (JsNum.mul parsedAmount (.num LAMPORTS_PER_SOL)) with
          | .error e =>
              ({ s with loading := false },
               [.consoleError "Transfer failed",
                .toastError "Transfer failed"
                  (some (jsOrDefault e.message "Unknown error"))], none)
          | .ok lamports =>
            let instruction : TransferInstruction :=
              { fromPubkey := me, toPubkey := destination, lamports := lamports }
            let txOptions : Option TxOptions :=
              if s.gasless then some { feeToken := "USDC" } else none
            let call : SendTxCall :=
              { instructions := [instruction], transactionOptions := txOptions }
            match sendTx with
            | .ok signature =>
                ({ s with amount := "", loading := false },
                 [.consoleLog "Sending transaction...",
                  .consoleLog "Signature:",
                  .toastSuccess "Transaction sent successfully!"
                    (some ("Signature: " ++ signature.take 8 ++ "..."))],
                 some call)
            | .error e =>
                ({ s with loading := false },
                 [.consoleLog "Sending transaction...",
                  .consoleError "Transfer failed",
                  .toastError "Transfer failed"
                    (some (jsOrDefault e.message "Unknown error"))],
                 some call)

/-! ## Polling effects -/

/-- An interval started by `setInterval`: a fresh timer id, the callback it
repeatedly invokes, and the fixed period argument in milliseconds. -/
structure IntervalStart where
  id : Nat
  callback : String
  delayMs : Nat
  deriving DecidableEq, Repr

/-- The outcome of running a React effect body once: the immediate calls it
makes, the intervals it starts, and the timer ids its returned cleanup
function clears (empty when it returns no cleanup). -/
structure EffectRun where
  immediateCalls : List String
  intervals : List IntervalStart
  cleanupClears : List Nat
  deriving DecidableEq, Repr

/-- The WalletOverview effect: when connected with a wallet, it calls
fetchBalances once, starts a 10000 ms interval re-invoking fetchBalances,
and returns a cleanup clearing that interval. -/
def walletOverviewEffect (isConnected : Bool) (smartWallet : Option String)
    (freshId : Nat) : EffectRun :=
  if isConnected && jsTruthyWallet smartWallet then
    { immediateCalls := ["fetchBalances"],
      intervals := [{ id := freshId, callback := "fetchBalances", delayMs := 10000 }],
      cleanupClears := [freshId] }
  else
    { immediateCalls := [], intervals := [], cleanupClears := [] }

/-- The TransactionHistory effect: when connected with a wallet, it calls
fetchTransactions once, starts a 30000 ms interval re-invoking
fetchTransactions, and returns a cleanup clearing that interval. -/
def transactionHistoryEffect (isConnected : Bool) (smartWallet : Option String)
    (freshId : Nat) : EffectRun :=
  if isConnected && jsTruthyWallet smartWallet then
    { immediateCalls := ["fetchTransactions"],
      intervals := [{ id := freshId, callback := "fetchTransactions", delayMs := 30000 }],
      cleanupClears := [freshId] }
  else
    { immediateCalls := [], intervals := [], cleanupClears := [] }

/-- The repository's interval-starting effects, indexed: these are the only
two occurrences of setInterval/clearInterval in the source tree. -/
def repoIntervalEffects (k : Nat) : Bool → Option String → Nat → EffectRun :=
  match k with
  | 0 => walletOverviewEffect
  | _ => transactionHistoryEffect

/-! ## Component inventory -/

/-- The wallet-mutating operations exposed by the SDK's useWallet hook. -/
inductive SdkOp where
  | connect
  | disconnect
  | signMessage
  | signAndSendTransaction
  deriving DecidableEq, Repr

/-- Which wallet-mutating SDK operations each named component invokes,
transcribed from the source: PasskeyLogin invokes connect (handleLogin);
AppShell invokes disconnect (the Disconnect button); SignMessage invokes
signMessage (handleSign); GaslessTransfer invokes signAndSendTransaction
(handleTransfer); WalletOverview, TransactionHistory and LazorTxProvider
invoke none (read-only uses of the hook, or provider setup). -/
def walletSdkCalls (c : String) : List SdkOp :=
  if c = "PasskeyLogin" then [.connect]
  else if c = "AppShell" then [.disconnect]
  else if c = "SignMessage" then [.signMessage]
  else if c = "GaslessTransfer" then [.signAndSendTransaction]
  else []

/-- All React components defined in the repository. -/
def repoComponents : List String :=
  ["PasskeyLogin", "AppShell", "SignMessage", "GaslessTransfer",
   "WalletOverview", "TransactionHistory", "LazorTxProvider", "RootLayout"]

/-! ## Theorems about the claims -/

/-- Claim C3: while a wallet is connected, the WalletOverview effect starts
an interval re-invoking fetchBalances with a fixed 10000 ms period, and the
TransactionHistory effect starts an interval re-invoking fetchTransactions
with a fixed 30000 ms period. -/
theorem claimC3_polling_periods (w : String) (idB idT : Nat) (hw : w ≠ "") :
    (walletOverviewEffect true (some w) idB).intervals =
      [{ id := idB, callback := "fetchBalances", delayMs := 10000 }] ∧
    (transactionHistoryEffect true (some w) idT).intervals =
      [{ id := idT, callback := "fetchTransactions", delayMs := 30000 }] := by
  constructor <;>
    simp [walletOverviewEffect, transactionHistoryEffect, jsTruthyWallet, hw]

/-- Witness for C3 at a concrete wallet and timer ids. -/
theorem claimC3_polling_periods_witness :
    ("w" : String) ≠ "" ∧
    ((walletOverviewEffect true (some "w") 1).intervals =
      [{ id := 1, callback := "fetchBalances", delayMs := 10000 }] ∧
    (transactionHistoryEffect true (some "w") 2).intervals =
      [{ id := 2, callback := "fetchTransactions", delayMs := 30000 }]) :=
  ⟨by decide, claimC3_polling_periods "w" 1 2 (by decide)⟩

/-- Claim C6: for every interval-starting effect in the repository and every
input, the returned cleanup clears exactly the interval ids the effect
started (and clears nothing when no interval was started); no other code
path clears a timer. -/
theorem claimC6_cleanup_exactly_own_interval (k : Nat) (c : Bool)
    (w : Option String) (freshId : Nat) :
    (repoIntervalEffects k c w freshId).cleanupClears =
      (repoIntervalEffects k c w freshId).intervals.map IntervalStart.id := by
  rcases k with _ | k <;>
    simp only [repoIntervalEffects, walletOverviewEffect, transactionHistoryEffect] <;>
    split <;> simp

/-- Claim C7: the login card invokes connect, the shell invokes disconnect,
the message-signing form invokes signMessage, the gasless-transfer form
invokes signAndSendTransaction, and every other component in the repository
invokes no wallet-mutating SDK operation. -/
theorem claimC7_component_sdk_calls :
    walletSdkCalls "PasskeyLogin" = [SdkOp.connect] ∧
    walletSdkCalls "AppShell" = [SdkOp.disconnect] ∧
    walletSdkCalls "SignMessage" = [SdkOp.signMessage] ∧
    walletSdkCalls "GaslessTransfer" = [SdkOp.signAndSendTransaction] ∧
    walletSdkCalls "WalletOverview" = [] ∧
    walletSdkCalls "TransactionHistory" = [] ∧
    walletSdkCalls "LazorTxProvider" = [] ∧
    walletSdkCalls "RootLayout" = [] := by decide

/-- Unfolding of formatTime at a nonzero block time. -/
theorem formatTime_some_nonzero (now : Rat) (bt : Int) (hbt : bt ≠ 0) :
    formatTime now (some bt) =
      (if now - (bt : Rat) < 60 then "Just now"
       else if now - (bt : Rat) < 3600 then
         toString (Int.floor ((now - (bt : Rat)) / 60)) ++ "m ago"
       else if now - (bt : Rat) < 86400 then
         toString (Int.floor ((now - (bt : Rat)) / 3600)) ++ "h ago"
       else toString (Int.floor ((now - (bt : Rat)) / 86400)) ++ "d ago") := by
  simp [formatTime, hbt]

/-- Claim C8: formatTime is total and returns Pending when blockTime is
null or 0, and otherwise, with diff = now - blockTime, Just now below 60s,
floor-of-minutes below 3600s, floor-of-hours below 86400s, and
floor-of-days from 86400s on. -/
theorem claimC8_formatTime_spec (now : Rat) (bt : Int) :
    formatTime now none = "Pending..." ∧
    formatTime now (some 0) = "Pending..." ∧
    (bt ≠ 0 →
      ((now - (bt : Rat) < 60 → formatTime now (some bt) = "Just now") ∧
       (60 ≤ now - (bt : Rat) → now - (bt : Rat) < 3600 →
          formatTime now (some bt) =
            toString (Int.floor ((now - (bt : Rat)) / 60)) ++ "m ago") ∧
       (3600 ≤ now - (bt : Rat) → now - (bt : Rat) < 86400 →
          formatTime now (some bt) =
            toString (Int.floor ((now - (bt : Rat)) / 3600)) ++ "h ago") ∧
       (86400 ≤ now - (bt : Rat) →
          formatTime now (some bt) =
            toString (Int.floor ((now - (bt : Rat)) / 86400)) ++ "d ago"))) := by
  refine ⟨rfl, rfl, fun hbt => ⟨?_, ?_, ?_, ?_⟩⟩
  · intro h1
    rw [formatTime_some_nonzero now bt hbt, if_pos h1]
  · intro h1 h2
    rw [formatTime_some_nonzero now bt hbt, if_neg (by linarith), if_pos h2]
  · intro h1 h2
    rw [formatTime_some_nonzero now bt hbt, if_neg (by linarith),
      if_neg (by linarith), if_pos h2]
  · intro h1
    rw [formatTime_some_nonzero now bt hbt, if_neg (by linarith),
      if_neg (by linarith), if_neg (by linarith)]

/-- Witness for C8 in the minutes branch at now = 100, blockTime = 30. -/
theorem claimC8_formatTime_spec_witness :
    (30 : Int) ≠ 0 ∧ (60 : Rat) ≤ 100 - ((30 : Int) : Rat) ∧
    100 - ((30 : Int) : Rat) < 3600 ∧
    formatTime 100 (some 30) =
      toString (Int.floor ((100 - ((30 : Int) : Rat)) / 60)) ++ "m ago" :=
  ⟨by decide, by norm_num, by norm_num,
   ((claimC8_formatTime_spec 100 30).2.2 (by decide)).2.1 (by norm_num) (by norm_num)⟩

/-- Claim C9: in handleTransfer, a successful transaction (one whose
lamports value passes BigInt conversion and whose SDK call returns a
signature) resets only the amount field to the empty string, leaving
recipient and the gasless flag unchanged; every failed transaction (SDK
error, invalid recipient address, or the BigInt RangeError on a NaN
amount) leaves recipient, amount, and the gasless flag all unchanged. -/
theorem claimC9_transfer_frame (me dest sig : String) (q : Rat) (n : Int)
    (parsed : JsNum) (e e2 : SdkErr) (s : GaslessTransferState)
    (hr : s.recipient ≠ "") (ha : s.amount ≠ "")
    (hq : q * LAMPORTS_PER_SOL = (n : Rat)) :
    ((handleTransfer (some me) (.ok dest) (.num q) (.ok sig) s).1.amount = "" ∧
     (handleTransfer (some me) (.ok dest) (.num q) (.ok sig) s).1.recipient = s.recipient ∧
     (handleTransfer (some me) (.ok dest) (.num q) (.ok sig) s).1.gasless = s.gasless) ∧
    ((handleTransfer (some me) (.ok dest) parsed (.error e) s).1.amount = s.amount ∧
     (handleTransfer (some me) (.ok dest) parsed (.error e) s).1.recipient = s.recipient ∧
     (handleTransfer (some me) (.ok dest) parsed (.error e) s).1.gasless = s.gasless) ∧
    ((handleTransfer (some me) (.error e2) parsed (.ok sig) s).1.amount = s.amount ∧
     (handleTransfer (some me) (.error e2) parsed (.ok sig) s).1.recipient = s.recipient ∧
     (handleTransfer (some me) (.error e2) parsed (.ok sig) s).1.gasless = s.gasless) ∧
    ((handleTransfer (some me) (.ok dest) JsNum.nan (.ok sig) s).1.amount = s.amount ∧
     (handleTransfer (some me) (.ok dest) JsNum.nan (.ok sig) s).1.recipient = s.recipient ∧
     (handleTransfer (some me) (.ok dest) JsNum.nan (.ok sig) s).1.gasless = s.gasless) := by
  have hden : (q * LAMPORTS_PER_SOL).den = 1 := by
    rw [hq]
    exact Rat.den_intCast n
  refine ⟨?_, ?_, ?_, ?_⟩
  · simp [handleTransfer, JsNum.mul, bigIntOf, hr, ha, hden]
  · rcases parsed with _ | q2
    · simp [handleTransfer, JsNum.mul, bigIntOf, hr, ha]
    · by_cases hd : (q2 * LAMPORTS_PER_SOL).den = 1 <;>
        simp [handleTransfer, JsNum.mul, bigIntOf, hr, ha, hd]
  · simp [handleTransfer, hr, ha]
  · simp [handleTransfer, JsNum.mul, bigIntOf, hr, ha]

/-- Witness for C9 at a concrete transfer. -/
theorem claimC9_transfer_frame_witness :
    ("r" : String) ≠ "" ∧ ("2" : String) ≠ "" ∧
    (2 : Rat) * LAMPORTS_PER_SOL = ((2000000000 : Int) : Rat) ∧
    (((handleTransfer (some "me") (.ok "r") (.num 2) (.ok "sig")
        { recipient := "r", amount := "2", loading := true, gasless := true }).1.amount = "" ∧
      (handleTransfer (some "me") (.ok "r") (.num 2) (.ok "sig")
        { recipient := "r", amount := "2", loading := true, gasless := true }).1.recipient = "r" ∧
      (handleTransfer (some "me") (.ok "r") (.num 2) (.ok "sig")
        { recipient := "r", amount := "2", loading := true, gasless := true }).1.gasless = true) ∧
     ((handleTransfer (some "me") (.ok "r") (.num 2) (.error { message := none })
        { recipient := "r", amount := "2", loading := true, gasless := true }).1.amount = "2" ∧
      (handleTransfer (some "me") (.ok "r") (.num 2) (.error { message := none })
        { recipient := "r", amount := "2", loading := true, gasless := true }).1.recipient = "r" ∧
      (handleTransfer (some "me") (.ok "r") (.num 2) (.error { message := none })
        { recipient := "r", amount := "2", loading := true, gasless := true }).1.gasless = true) ∧
     ((handleTransfer (some "me") (.error { message := none }) (.num 2) (.ok "sig")
        { recipient := "r", amount := "2", loading := true, gasless := true }).1.amount = "2" ∧
      (handleTransfer (some "me") (.error { message := none }) (.num 2) (.ok "sig")
        { recipient := "r", amount := "2", loading := true, gasless := true }).1.recipient = "r" ∧
      (handleTransfer (some "me") (.error { message := none }) (.num 2) (.ok "sig")
        { recipient := "r", amount := "2", loading := true, gasless := true }).1.gasless = true) ∧
     ((handleTransfer (some "me") (.ok "r") JsNum.nan (.ok "sig")
        { recipient := "r", amount := "2", loading := true, gasless := true }).1.amount = "2" ∧
      (handleTransfer (some "me") (.ok "r") JsNum.nan (.ok "sig")
        { recipient := "r", amount := "2", loading := true, gasless := true }).1.recipient = "r" ∧
      (handleTransfer (some "me") (.ok "r") JsNum.nan (.ok "sig")
        { recipient := "r", amount := "2", loading := true, gasless := true }).1.gasless = true)) :=
  ⟨by decide, by decide, by norm_num [LAMPORTS_PER_SOL],
   claimC9_transfer_frame "me" "r" "sig" 2 2000000000 (.num 2)
     { message := none } { message := none }
     { recipient := "r", amount := "2", loading := true, gasless := true }
     (by decide) (by decide) (by norm_num [LAMPORTS_PER_SOL])⟩

/-- Counterexample to C10: with non-empty fields, a valid recipient, and a
NaN parseFloat result (amount string abc), the BigInt conversion inside
SystemProgram.transfer throws: the error is caught locally and surfaced as
a Transfer failed toast, and signAndSendTransaction is never called. -/
theorem claimC10_counterexample :
    (handleTransfer (some "me") (.ok "r") JsNum.nan (.ok "sig")
      { recipient := "r", amount := "abc", loading := false, gasless := true }).2.2 =
      none ∧
    (handleTransfer (some "me") (.ok "r") JsNum.nan (.ok "sig")
      { recipient := "r", amount := "abc", loading := false, gasless := true }).2.1 =
      [.consoleError "Transfer failed",
       .toastError "Transfer failed"
         (some "The number NaN cannot be converted to a BigInt because it is not an integer")] := by
  constructor <;> decide

/-- Claim C10 (amended): handleTransfer guards only non-emptiness of the
recipient and amount strings and never itself checks that the amount
parses: whenever both fields are non-empty and parseFloat yields NaN, the
attempt to construct the transfer instruction throws in the BigInt
conversion of the NaN lamports value; the error is caught and surfaced as
a Transfer failed toast, no repository-side guard fires, and
signAndSendTransaction is never called.  Whenever a field is empty, no
call is made and a fill-in-all-fields toast is shown. -/
theorem claimC10_nan_amount_throws (me dest : String)
    (sendRes : Except SdkErr String) (s s2 : GaslessTransferState)
    (hr : s.recipient ≠ "") (ha : s.amount ≠ "")
    (h2 : s2.recipient = "" ∨ s2.amount = "") :
    (handleTransfer (some me) (.ok dest) JsNum.nan sendRes s).2.2 = none ∧
    (handleTransfer (some me) (.ok dest) JsNum.nan sendRes s).2.1 =
      [.consoleError "Transfer failed",
       .toastError "Transfer failed"
         (some "The number NaN cannot be converted to a BigInt because it is not an integer")] ∧
    UiEvent.toastError "Please fill in all fields" none ∉
      (handleTransfer (some me) (.ok dest) JsNum.nan sendRes s).2.1 ∧
    handleTransfer (some me) (.ok dest) JsNum.nan sendRes s2 =
      (s2, [.toastError "Please fill in all fields" none], none) := by
  refine ⟨?_, ?_, ?_, ?_⟩
  · simp [handleTransfer, JsNum.mul, bigIntOf, hr, ha]
  · simp [handleTransfer, JsNum.mul, bigIntOf, hr, ha, jsOrDefault]
  · simp [handleTransfer, JsNum.mul, bigIntOf, hr, ha, jsOrDefault]
  · rcases h2 with h2 | h2 <;> simp [handleTransfer, h2]

/-- Witness for the amended C10 at a concrete NaN transfer and an
empty-field state. -/
theorem claimC10_nan_amount_throws_witness :
    ("r" : String) ≠ "" ∧ ("abc" : String) ≠ "" ∧
    (("" : String) = "" ∨ ("1" : String) = "") ∧
    ((handleTransfer (some "me") (.ok "r") JsNum.nan (.ok "sig")
        { recipient := "r", amount := "abc", loading := false, gasless := true }).2.2 =
      none ∧
    (handleTransfer (some "me") (.ok "r") JsNum.nan (.ok "sig")
        { recipient := "r", amount := "abc", loading := false, gasless := true }).2.1 =
      [.consoleError "Transfer failed",
       .toastError "Transfer failed"
         (some "The number NaN cannot be converted to a BigInt because it is not an integer")] ∧
    UiEvent.toastError "Please fill in all fields" none ∉
      (handleTransfer (some "me") (.ok "r") JsNum.nan (.ok "sig")
        { recipient := "r", amount := "abc", loading := false, gasless := true }).2.1 ∧
    handleTransfer (some "me") (.ok "r") JsNum.nan (.ok "sig")
        { recipient := "", amount := "1", loading := false, gasless := true } =
      ({ recipient := "", amount := "1", loading := false, gasless := true },
       [.toastError "Please fill in all fields" none], none)) :=
  ⟨by decide, by decide, by decide,
   claimC10_nan_amount_throws "me" "r" (.ok "sig")
     { recipient := "r", amount := "abc", loading := false, gasless := true }
     { recipient := "", amount := "1", loading := false, gasless := true }
     (by decide) (by decide) (by decide)⟩

/-- Counterexample to C1: a failing transaction-history fetch is caught but
only logged to the console; no toast and no inline message surfaces it. -/
theorem claimC1_counterexample :
    (fetchTransactions (some "w") (.error { message := some "boom" })
      { transactions := [], loading := true }).2 =
      [UiEvent.consoleError "Failed to fetch transactions"] ∧
    surfacesError
      (fetchTransactions (some "w") (.error { message := some "boom" })
        { transactions := [], loading := true }).2 = false := by decide

/-- Claim C1 (amended): every failing UI operation except the
transaction-history fetch surfaces its error as a toast or inline message;
the transaction-history fetch catches its error but only logs it. -/
theorem claimC1_errors_surfaced (w me dest : String) (hw : w ≠ "")
    (e1 e2 e3 e4 e5 e6 : SdkErr) (tok : Except SdkErr (List Rat))
    (parsed : JsNum)
    (sWO : WalletOverviewState) (sTH : TransactionHistoryState)
    (sSM : SignMessageState) (hmsg : jsTrim sSM.message ≠ "")
    (sGT : GaslessTransferState) (hr : sGT.recipient ≠ "") (ha : sGT.amount ≠ "") :
    surfacesError (fetchBalances (some w) (.error e1) tok sWO).2 = true ∧
    surfacesError (handleLogin (.error e2)).2.1 = true ∧
    surfacesError (handleSign (.error e3) sSM).2.1 = true ∧
    surfacesError (handleTransfer (some me) (.error e4) parsed (.ok "x") sGT).2.1 = true ∧
    surfacesError (handleTransfer (some me) (.ok dest) parsed (.error e5) sGT).2.1 = true ∧
    (fetchTransactions (some w) (.error e6) sTH).2 =
      [.consoleError "Failed to fetch transactions"] := by
  refine ⟨?_, ?_, ?_, ?_, ?_, ?_⟩
  · simp [fetchBalances, jsTruthyWallet, hw, surfacesError, UiEvent.isErrorSurface]
  · simp [handleLogin, surfacesError, UiEvent.isErrorSurface]
  · simp [handleSign, hmsg, surfacesError, UiEvent.isErrorSurface]
  · simp [handleTransfer, hr, ha, surfacesError, UiEvent.isErrorSurface]
  · rcases parsed with _ | q2
    · simp [handleTransfer, JsNum.mul, bigIntOf, hr, ha, surfacesError,
        UiEvent.isErrorSurface]
    · by_cases hd : (q2 * LAMPORTS_PER_SOL).den = 1 <;>
        simp [handleTransfer, JsNum.mul, bigIntOf, hr, ha, hd, surfacesError,
          UiEvent.isErrorSurface]
  · simp [fetchTransactions, jsTruthyWallet, hw]

/-- Witness for the amended C1 at concrete failing operations. -/
theorem claimC1_errors_surfaced_witness :
    ("w" : String) ≠ "" ∧
    jsTrim "hello" ≠ "" ∧ ("r" : String) ≠ "" ∧ ("1" : String) ≠ "" ∧
    (surfacesError (fetchBalances (some "w") (.error { message := none }) (.ok [])
      { solBalance := none, usdcBalance := none, loading := false, copied := false }).2 = true ∧
    surfacesError (handleLogin (.error { message := none })).2.1 = true ∧
    surfacesError (handleSign (.error { message := none })
      { message := "hello", signature := none, loading := false, copied := false }).2.1 = true ∧
    surfacesError (handleTransfer (some "me") (.error { message := none }) (.num 1) (.ok "x")
      { recipient := "r", amount := "1", loading := false, gasless := true }).2.1 = true ∧
    surfacesError (handleTransfer (some "me") (.ok "d") (.num 1) (.error { message := none })
      { recipient := "r", amount := "1", loading := false, gasless := true }).2.1 = true ∧
    (fetchTransactions (some "w") (.error { message := none })
      { transactions := [], loading := false }).2 =
      [.consoleError "Failed to fetch transactions"]) :=
  ⟨by decide, by decide, by decide, by decide,
   claimC1_errors_surfaced "w" "me" "d" (by decide)
     { message := none } { message := none } { message := none }
     { message := none } { message := none } { message := none }
     (.ok []) (.num 1)
     { solBalance := none, usdcBalance := none, loading := false, copied := false }
     { transactions := [], loading := false }
     { message := "hello", signature := none, loading := false, copied := false }
     (by decide)
     { recipient := "r", amount := "1", loading := false, gasless := true }
     (by decide) (by decide)⟩

/-- Counterexample to C2: when the USDC token-account fetch inside
fetchBalances fails, the handler substitutes a fallback balance of 0 for
the failed result instead of leaving the previous value in place. -/
theorem claimC2_counterexample :
    (fetchBalances (some "w") (.ok 0) (.error { message := none })
      { solBalance := none, usdcBalance := none, loading := false,
        copied := false }).1.usdcBalance = some 0 ∧
    ¬ ((fetchBalances (some "w") (.ok 0) (.error { message := none })
      { solBalance := none, usdcBalance := none, loading := false,
        copied := false }).1.usdcBalance = none) := by
  constructor <;> decide

/-- Claim C2 (amended): after any caught error no automatic retry occurs
and no fallback value is substituted, with one exception: a failed USDC
token-account sub-fetch inside fetchBalances sets the USDC balance to 0.
All other error paths only reset the loading flag (handleSign additionally
leaves the signature cleared, as it was cleared before the call), and
handleLogin invokes connect exactly once per click. -/
theorem claimC2_no_retry_no_fallback (w me dest : String) (hw : w ≠ "")
    (e : SdkErr) (sol : Int) (tok : Except SdkErr (List Rat)) (parsed : JsNum)
    (sWO : WalletOverviewState) (sTH : TransactionHistoryState)
    (sSM : SignMessageState) (hmsg : jsTrim sSM.message ≠ "")
    (sGT : GaslessTransferState) (hr : sGT.recipient ≠ "") (ha : sGT.amount ≠ "") :
    (fetchBalances (some w) (.error e) tok sWO).1 = { sWO with loading := false } ∧
    (fetchBalances (some w) (.ok sol) (.error e) sWO).1 =
      { sWO with solBalance := some ((sol : Rat) / LAMPORTS_PER_SOL),
                 usdcBalance := some 0, loading := false } ∧
    (fetchTransactions (some w) (.error e) sTH).1 = { sTH with loading := false } ∧
    (handleSign (.error e) sSM).1 =
      { sSM with signature := none, loading := false } ∧
    (handleTransfer (some me) (.ok dest) parsed (.error e) sGT).1 =
      { sGT with loading := false } ∧
    (handleTransfer (some me) (.error e) parsed (.ok "x") sGT).1 =
      { sGT with loading := false } ∧
    (handleLogin (.error e)).2.2 = 1 := by
  refine ⟨?_, ?_, ?_, ?_, ?_, ?_, ?_⟩
  · simp [fetchBalances, jsTruthyWallet, hw]
  · simp [fetchBalances, jsTruthyWallet, hw]
  · simp [fetchTransactions, jsTruthyWallet, hw]
  · simp [handleSign, hmsg]
  · rcases parsed with _ | q2
    · simp [handleTransfer, JsNum.mul, bigIntOf, hr, ha]
    · by_cases hd : (q2 * LAMPORTS_PER_SOL).den = 1 <;>
        simp [handleTransfer, JsNum.mul, bigIntOf, hr, ha, hd]
  · simp [handleTransfer, hr, ha]
  · simp [handleLogin]

/-- Witness for the amended C2 at concrete failing operations. -/
theorem claimC2_no_retry_no_fallback_witness :
    ("w" : String) ≠ "" ∧ jsTrim "hello" ≠ "" ∧
    ("r" : String) ≠ "" ∧ ("1" : String) ≠ "" ∧
    ((fetchBalances (some "w") (.error { message := none }) (.ok [])
      { solBalance := none, usdcBalance := none, loading := true, copied := false }).1 =
      { solBalance := none, usdcBalance := none, loading := false, copied := false } ∧
    (fetchBalances (some "w") (.ok 3) (.error { message := none })
      { solBalance := none, usdcBalance := none, loading := true, copied := false }).1 =
      { solBalance := some (((3 : Int) : Rat) / LAMPORTS_PER_SOL),
        usdcBalance := some 0, loading := false, copied := false } ∧
    (fetchTransactions (some "w") (.error { message := none })
      { transactions := [], loading := true }).1 =
      { transactions := [], loading := false } ∧
    (handleSign (.error { message := none })
      { message := "hello", signature := some "old", loading := true, copied := false }).1 =
      { message := "hello", signature := none, loading := false, copied := false } ∧
    (handleTransfer (some "me") (.ok "d") (.num 1) (.error { message := none })
      { recipient := "r", amount := "1", loading := true, gasless := true }).1 =
      { recipient := "r", amount := "1", loading := false, gasless := true } ∧
    (handleTransfer (some "me") (.error { message := none }) (.num 1) (.ok "x")
      { recipient := "r", amount := "1", loading := true, gasless := true }).1 =
      { recipient := "r", amount := "1", loading := false, gasless := true } ∧
    (handleLogin (.error { message := none })).2.2 = 1) :=
  ⟨by decide, by decide, by decide, by decide,
   claimC2_no_retry_no_fallback "w" "me" "d" (by decide)
     { message := none } 3 (.ok []) (.num 1)
     { solBalance := none, usdcBalance := none, loading := true, copied := false }
     { transactions := [], loading := true }
     { message := "hello", signature := some "old", loading := true, copied := false }
     (by decide)
     { recipient := "r", amount := "1", loading := true, gasless := true }
     (by decide) (by decide)⟩

/-- Counterexample to C4: the transfer handler does not hand the user's
input to the SDK unchanged: with amount parsing to 2, it constructs a
SystemProgram.transfer instruction whose lamports value is 2 multiplied by
LAMPORTS_PER_SOL, not the parsed input; and the balance display renders
the RPC's lamport response divided by LAMPORTS_PER_SOL, not the response
itself. -/
theorem claimC4_counterexample :
    ((handleTransfer (some "me") (.ok "dest") (.num 2) (.ok "sig")
      { recipient := "dest", amount := "2", loading := false, gasless := true }).2.2 =
      some { instructions :=
               [{ fromPubkey := "me", toPubkey := "dest",
                  lamports := 2000000000 }],
             transactionOptions := some { feeToken := "USDC" } } ∧
    (2000000000 : Int) ≠ 2) ∧
    ((fetchBalances (some "w") (.ok 5) (.ok [])
      { solBalance := none, usdcBalance := none, loading := false,
        copied := false }).1.solBalance = some (5 / LAMPORTS_PER_SOL) ∧
    ¬ ((fetchBalances (some "w") (.ok 5) (.ok [])
      { solBalance := none, usdcBalance := none, loading := false,
        copied := false }).1.solBalance = some 5)) := by
  have h : (2 : Rat) * LAMPORTS_PER_SOL = ((2000000000 : Int) : Rat) := by
    norm_num [LAMPORTS_PER_SOL]
  refine ⟨⟨?_, ?_⟩, ?_, ?_⟩
  · simp only [handleTransfer, JsNum.mul, bigIntOf, h, Rat.den_intCast,
      Rat.num_intCast]
    rw [if_neg (by decide)]
    simp
  · norm_num
  · simp only [fetchBalances, jsTruthyWallet]
    norm_num
    rw [if_neg (by decide)]
  · simp only [fetchBalances, jsTruthyWallet, LAMPORTS_PER_SOL]
    norm_num
    rw [if_neg (by decide)]
    norm_num

/-- Claim C4 (amended): each feature operation is a thin wrapper around a
single SDK or RPC call followed by rendering, but the repository does
transform, construct, and unwrap around the call: the transfer handler
multiplies the parsed amount by LAMPORTS_PER_SOL and constructs a
SystemProgram.transfer instruction; the sign handler passes the raw message
but unwraps object results to their signature field; the balance display
divides the lamport response by LAMPORTS_PER_SOL. -/
theorem claimC4_single_call_with_transforms (w me dest t : String) (hw : w ≠ "")
    (sol n : Int) (q : Rat)
    (sendRes : Except SdkErr String)
    (sWO : WalletOverviewState)
    (sSM : SignMessageState) (hmsg : jsTrim sSM.message ≠ "")
    (sGT : GaslessTransferState) (hr : sGT.recipient ≠ "") (ha : sGT.amount ≠ "")
    (hq : q * LAMPORTS_PER_SOL = (n : Rat)) :
    (fetchBalances (some w) (.ok sol) (.ok []) sWO).1.solBalance =
      some ((sol : Rat) / LAMPORTS_PER_SOL) ∧
    (handleSign (.ok (.str t)) sSM).1.signature = some t ∧
    (handleSign (.ok (.obj t)) sSM).1.signature = some t ∧
    (handleSign (.ok (.str t)) sSM).2.2 = some sSM.message ∧
    (handleTransfer (some me) (.ok dest) (.num q) sendRes sGT).2.2 =
      some { instructions :=
               [{ fromPubkey := me, toPubkey := dest, lamports := n }],
             transactionOptions :=
               if sGT.gasless then some { feeToken := "USDC" } else none } := by
  have hden : (q * LAMPORTS_PER_SOL).den = 1 := by
    rw [hq]
    exact Rat.den_intCast n
  have hnum : (q * LAMPORTS_PER_SOL).num = n := by
    rw [hq]
    exact Rat.num_intCast n
  refine ⟨?_, ?_, ?_, ?_, ?_⟩
  · simp [fetchBalances, jsTruthyWallet, hw]
  · simp [handleSign, hmsg]
  · simp [handleSign, hmsg]
  · simp [handleSign, hmsg]
  · cases sendRes <;>
      simp [handleTransfer, hr, ha, JsNum.mul, bigIntOf, hden, hnum]

/-- Witness for the amended C4 at concrete operations. -/
theorem claimC4_single_call_with_transforms_witness :
    ("w" : String) ≠ "" ∧ jsTrim "hello" ≠ "" ∧
    ("r" : String) ≠ "" ∧ ("2" : String) ≠ "" ∧
    (2 : Rat) * LAMPORTS_PER_SOL = ((2000000000 : Int) : Rat) ∧
    ((fetchBalances (some "w") (.ok 5) (.ok [])
      { solBalance := none, usdcBalance := none, loading := false,
        copied := false }).1.solBalance = some (((5 : Int) : Rat) / LAMPORTS_PER_SOL) ∧
    (handleSign (.ok (.str "sg"))
      { message := "hello", signature := none, loading := false,
        copied := false }).1.signature = some "sg" ∧
    (handleSign (.ok (.obj "sg"))
      { message := "hello", signature := none, loading := false,
        copied := false }).1.signature = some "sg" ∧
    (handleSign (.ok (.str "sg"))
      { message := "hello", signature := none, loading := false,
        copied := false }).2.2 = some "hello" ∧
    (handleTransfer (some "me") (.ok "d") (.num 2) (.ok "sig")
      { recipient := "r", amount := "2", loading := false, gasless := true }).2.2 =
      some { instructions :=
               [{ fromPubkey := "me", toPubkey := "d",
                  lamports := 2000000000 }],
             transactionOptions :=
               if ({ recipient := "r", amount := "2", loading := false,
                     gasless := true : GaslessTransferState }).gasless then
                 some { feeToken := "USDC" } else none }) :=
  ⟨by decide, by decide, by decide, by decide, by norm_num [LAMPORTS_PER_SOL],
   claimC4_single_call_with_transforms "w" "me" "d" "sg" (by decide)
     5 2000000000 2 (.ok "sig")
     { solBalance := none, usdcBalance := none, loading := false, copied := false }
     { message := "hello", signature := none, loading := false, copied := false }
     (by decide)
     { recipient := "r", amount := "2", loading := false, gasless := true }
     (by decide) (by decide) (by norm_num [LAMPORTS_PER_SOL])⟩

/-- Counterexample to C5: the repository does check and reject an input
before passing it on: handleSign rejects a whitespace-only message with an
inline toast and never invokes the SDK signMessage call. -/
theorem claimC5_counterexample :
    handleSign (.ok (.str "sig"))
      { message := " ", signature := none, loading := false, copied := false } =
      ({ message := " ", signature := none, loading := false, copied := false },
       [.toastError "Please enter a message to sign" none], none) := by decide

/-- Claim C5 (amended): the repository defines no entity types or
invariants of its own, but it does apply minimal emptiness guards before
calling the SDK: handleSign rejects messages that trim to empty and
otherwise passes the raw message on; handleTransfer rejects empty
recipient or amount and performs no numeric validation of its own: a NaN
amount passes every repository-side guard and is rejected only by the
BigInt conversion inside SystemProgram.transfer, whose caught error is
surfaced as a Transfer failed toast without the SDK being called. -/
theorem claimC5_minimal_guards (me dest : String)
    (r : Except SdkErr SignResult) (pk : Except SdkErr String)
    (parsed : JsNum) (sendRes : Except SdkErr String)
    (sSM sSM2 : SignMessageState) (sGT sGT2 : GaslessTransferState)
    (hblank : jsTrim sSM.message = "") (hmsg : jsTrim sSM2.message ≠ "")
    (h2 : sGT.recipient = "" ∨ sGT.amount = "")
    (hr : sGT2.recipient ≠ "") (ha : sGT2.amount ≠ "") :
    handleSign r sSM =
      (sSM, [.toastError "Please enter a message to sign" none], none) ∧
    (handleSign r sSM2).2.2 = some sSM2.message ∧
    handleTransfer (some me) pk parsed sendRes sGT =
      (sGT, [.toastError "Please fill in all fields" none], none) ∧
    UiEvent.toastError "Please fill in all fields" none ∉
      (handleTransfer (some me) (.ok dest) JsNum.nan sendRes sGT2).2.1 ∧
    UiEvent.toastError "Transfer failed"
        (some "The number NaN cannot be converted to a BigInt because it is not an integer") ∈
      (handleTransfer (some me) (.ok dest) JsNum.nan sendRes sGT2).2.1 ∧
    (handleTransfer (some me) (.ok dest) JsNum.nan sendRes sGT2).2.2 = none := by
  refine ⟨?_, ?_, ?_, ?_, ?_, ?_⟩
  · simp [handleSign, hblank]
  · cases r <;> simp [handleSign, hmsg]
  · rcases h2 with h2 | h2 <;> simp [handleTransfer, h2]
  · simp [handleTransfer, JsNum.mul, bigIntOf, hr, ha, jsOrDefault]
  · simp [handleTransfer, JsNum.mul, bigIntOf, hr, ha, jsOrDefault]
  · simp [handleTransfer, JsNum.mul, bigIntOf, hr, ha]

/-- Witness for the amended C5 at concrete inputs. -/
theorem claimC5_minimal_guards_witness :
    jsTrim " " = "" ∧ jsTrim "hello" ≠ "" ∧
    (("" : String) = "" ∨ ("1" : String) = "") ∧
    ("r" : String) ≠ "" ∧ ("abc" : String) ≠ "" ∧
    (handleSign (.ok (.str "sg"))
      { message := " ", signature := none, loading := false, copied := false } =
      ({ message := " ", signature := none, loading := false, copied := false },
       [.toastError "Please enter a message to sign" none], none) ∧
    (handleSign (.ok (.str "sg"))
      { message := "hello", signature := none, loading := false,
        copied := false }).2.2 = some "hello" ∧
    handleTransfer (some "me") (.ok "d") (.num 1) (.ok "sig")
      { recipient := "", amount := "1", loading := false, gasless := true } =
      ({ recipient := "", amount := "1", loading := false, gasless := true },
       [.toastError "Please fill in all fields" none], none) ∧
    UiEvent.toastError "Please fill in all fields" none ∉
      (handleTransfer (some "me") (.ok "d") JsNum.nan (.ok "sig")
        { recipient := "r", amount := "abc", loading := false, gasless := true }).2.1 ∧
    UiEvent.toastError "Transfer failed"
        (some "The number NaN cannot be converted to a BigInt because it is not an integer") ∈
      (handleTransfer (some "me") (.ok "d") JsNum.nan (.ok "sig")
        { recipient := "r", amount := "abc", loading := false, gasless := true }).2.1 ∧
    (handleTransfer (some "me") (.ok "d") JsNum.nan (.ok "sig")
      { recipient := "r", amount := "abc", loading := false,
        gasless := true }).2.2 = none) :=
  ⟨by decide, by decide, by decide, by decide, by decide,
   claimC5_minimal_guards "me" "d" (.ok (.str "sg")) (.ok "d") (.num 1) (.ok "sig")
     { message := " ", signature := none, loading := false, copied := false }
     { message := "hello", signature := none, loading := false, copied := false }
     { recipient := "", amount := "1", loading := false, gasless := true }
     { recipient := "r", amount := "abc", loading := false, gasless := true }
     (by decide) (by decide) (by decide) (by decide) (by decide)⟩
